import Mathlib

/-!
Verification development for the `actual-tests` repository
(`drivers/webdrivers/WebdriverFactory.py`, `drivers/webdrivers/webdrivers.py`,
`drivers/webdrivers/AuxiliaryMethods.py`).

Shallow embedding conventions:
* Python strings are `List Char` (`Chars` below); filesystem paths are lists
  of path segments (`PathT`).
* The filesystem and the Selenium backends are modelled by explicit inputs:
  a `DriverWorld` records whether the Selenium-Manager constructor would
  succeed (and with which exception class it would fail), and whether the
  local driver executable exists on disk.
* Python exceptions become constructors of `PyError`; the `except
  (NoSuchDriverException, WebDriverException)` clause of the factories is
  the `ExcClass.recoverable` predicate.
* Python `float` values are modelled by exact unreduced fractions
  (`PyNum`); the repository only ever compares and divides the small
  decimal literals this represents exactly.
-/

/-- Python strings, modelled as their character sequences. -/
abbrev Chars := List Char

/-- Filesystem paths, modelled as their list of path segments. -/
abbrev PathT := List Chars

/-- `str.lower()` (ASCII as used by the repository). -/
def lowerStr (s : Chars) : Chars := s.map Char.toLower

/-- `str.lstrip()`: drop leading whitespace. -/
def ltrim (s : Chars) : Chars := s.dropWhile Char.isWhitespace

/-- `str.rstrip()`: drop trailing whitespace. -/
def rtrim (s : Chars) : Chars := (s.reverse.dropWhile Char.isWhitespace).reverse

/-- `str.strip()`: drop whitespace on both ends. -/
def strip (s : Chars) : Chars := rtrim (ltrim s)

/-- Classification of the exception raised by a Selenium driver constructor:
`NoSuchDriverException`, any other `WebDriverException`, or an exception of
any other Python class. -/
inductive ExcClass where
  | noSuchDriver
  | webDriver
  | other
deriving DecidableEq

/-- The exception classes caught by the factories' managed-attempt
`except (NoSuchDriverException, WebDriverException)` clause
(`WebdriverFactory.py` line 268, `webdrivers.py` line 104). -/
def ExcClass.recoverable : ExcClass → Bool
  | .noSuchDriver => true
  | .webDriver => true
  | .other => false

/-- Python exceptions raised by the embedded code.  `valueError` is the
`ValueError` of `_local_driver_path`; `configNotFound` and
`localDriverMissing` are the two `FileNotFoundError`s (the Python messages
carry exactly the payload recorded here: the parametrization path,
respectively the browser kind and the attempted driver path); `driverRaised`
is an exception propagated out of a Selenium constructor. -/
inductive PyError where
  | valueError (msg : Chars)
  | configNotFound (path : PathT)
  | localDriverMissing (browser : Chars) (path : PathT)
  | driverRaised (c : ExcClass)
deriving DecidableEq

/-- A created WebDriver session: the browser kind it was built for, the
argument list of the options object passed to its constructor, and the
explicit executable path of its `Service` (`none` for the Selenium-Manager
constructor, which receives no service). -/
structure Session where
  browser : Chars
  optionArgs : List Chars
  execPath : Option PathT
deriving DecidableEq

/-- The environment a single `create_driver` / `make_driver` call runs in:
the discovered repository root, the outcome the Selenium-Manager constructor
would have (`none` = success, `some c` = raises an exception of class `c`),
whether `driver_path.exists()` holds, and the outcome the local constructor
would have. -/
structure DriverWorld where
  root : PathT
  managedOutcome : Option ExcClass
  localExists : Bool
  localOutcome : Option ExcClass
deriving DecidableEq

deriving instance DecidableEq for Except

/-- Observable outcome of one factory call: its returned session or raised
exception, plus whether the managed constructor was called, whether the
fallback warning (`log.warning`) was emitted, and whether the local
constructor was called. -/
structure ProvisionOutcome where
  result : Except PyError Session
  managedAttempted : Bool
  fallbackWarned : Bool
  localInvoked : Bool
deriving DecidableEq

namespace WebdriverFactory

/-- `WebdriverFactory._local_driver_path` (lines 136-145), identical to the
free function `_local_driver_path` of `webdrivers.py` (lines 35-42): a pure
mapping from the browser kind to the expected local driver executable path
under `root`, raising `ValueError` for any other kind.  It takes no
filesystem information at all, so it cannot (and does not) check existence. -/
def _local_driver_path (root : PathT) (browser : Chars) : Except PyError PathT :=
  if browser = "chrome".data then
    .ok (root ++ ["drivers".data, "chromedriver-win64".data, "chromedriver.exe".data])
  else if browser = "edge".data then
    .ok (root ++ ["drivers".data, "edge".data, "msedgedriver.exe".data])
  else if browser = "firefox".data then
    .ok (root ++ ["drivers".data, "firefox".data, "geckodriver.exe".data])
  else
    .error (.valueError "browser debe ser: chrome | edge | firefox".data)

/-- The `options.add_argument` calls of the three per-browser branches of
`create_driver` (lines 225-253) / `make_driver` (lines 63-92), factored on
the browser kind: chrome and edge add `--headless=new`, firefox adds
`-headless`, each only when `headless` is requested. -/
def headlessArgs (browser : Chars) (headless : Bool) : List Chars :=
  if browser = "firefox".data then
    if headless then ["-headless".data] else []
  else
    if headless then ["--headless=new".data] else []

/-- The local part of `create_driver` / `make_driver` (factory lines 276-287,
free-function lines 108-115): check `driver_path.exists()`, raise
`FileNotFoundError` naming the browser and the path if absent, otherwise call
`local_ctor()` (whose exceptions propagate).  `mAtt`/`warned` carry the flags
accumulated by the managed phase. -/
def localPhase (w : DriverWorld) (b : Chars) (driver_path : PathT) (s : Session)
    (mAtt warned : Bool) : ProvisionOutcome :=
  if w.localExists then
    match w.localOutcome with
    | none => ⟨.ok s, mAtt, warned, true⟩
    | some c => ⟨.error (.driverRaised c), mAtt, warned, true⟩
  else
    ⟨.error (.localDriverMissing b driver_path), mAtt, warned, false⟩

/-- `WebdriverFactory.create_driver` (lines 201-287); `make_driver` of
`webdrivers.py` (lines 45-115) is the same control flow.  The browser string
is lowercased, the local driver path resolved (raising `ValueError` for an
unsupported kind before anything else), one shared options object is built
and captured by both the managed and the local constructor; if
`prefer_manager` the managed constructor is tried first, a recoverable
failure logs a warning and falls through to the local phase, any other
exception propagates. -/
def create_driver (w : DriverWorld) (browser : Chars) (headless : Bool)
    (prefer_manager : Bool) : ProvisionOutcome :=
  let b := lowerStr browser
  match _local_driver_path w.root b with
  | .error e => ⟨.error e, false, false, false⟩
  | .ok driver_path =>
    let args := headlessArgs b headless
    let managedSession : Session := ⟨b, args, none⟩
    let localSession : Session := ⟨b, args, some driver_path⟩
    if prefer_manager then
      match w.managedOutcome with
      | none => ⟨.ok managedSession, true, false, false⟩
      | some c =>
        if c.recoverable then
          localPhase w b driver_path localSession true true
        else
          ⟨.error (.driverRaised c), true, false, false⟩
    else
      localPhase w b driver_path localSession false false

end WebdriverFactory

/-- A Python `dict[str, str]`, modelled as an association list whose keys are
unique by construction (`assocInsert` overwrites in place). -/
abbrev PropMap := List (Chars × Chars)

/-- `dict` assignment `m[k] = v`: overwrite the existing binding in place,
or append a new one. -/
def assocInsert (m : PropMap) (k v : Chars) : PropMap :=
  match m with
  | [] => [(k, v)]
  | (k', v') :: t => if k' = k then (k', v) :: t else (k', v') :: assocInsert t k v

/-- `dict` lookup `m.get(k)`. -/
def alookup (m : PropMap) (k : Chars) : Option Chars :=
  match m with
  | [] => none
  | (k', v) :: t => if k' = k then some v else alookup t k

/-- The process environment, as the association of variable names to values;
`os.getenv` with a default. -/
abbrev Env := List (Chars × Chars)

/-- `os.getenv(k, dflt)`: the variable's value when set (even if empty),
otherwise the default. -/
def getenvD (env : Env) (k dflt : Chars) : Chars := (alookup env k).getD dflt

namespace WebdriverFactory

/-- The body of `_read_properties`' per-line loop (lines 67-74), as the value
the line contributes: `none` for blank lines, comments (`#`/`;`) and lines
without `=`; otherwise the pair obtained by splitting the stripped line at
its first `=` and stripping both sides. -/
def parseLine (raw : Chars) : Option (Chars × Chars) :=
  let line := strip raw
  if line = [] then none
  else if line.head? = some '#' ∨ line.head? = some ';' then none
  else if '=' ∈ line then
    some (strip (line.takeWhile (fun c => c ≠ '=')),
          strip ((line.dropWhile (fun c => c ≠ '=')).tail))
  else none

/-- One iteration of `_read_properties`' loop: fold the line's contribution
into the accumulated dict. -/
def propStep (m : PropMap) (raw : Chars) : PropMap :=
  match parseLine raw with
  | some (k, v) => assocInsert m k v
  | none => m

/-- `WebdriverFactory._read_properties` (lines 56-75).  The file is modelled
as `none` when `path.exists()` is false (then `FileNotFoundError` naming the
path is raised) and otherwise as the list of lines `read_text().splitlines()`
produces. -/
def _read_properties (path : PathT) (file : Option (List Chars)) : Except PyError PropMap :=
  match file with
  | none => .error (.configNotFound path)
  | some lines => .ok (lines.foldl propStep [])

/-- `WebdriverFactory.load_parametrization` (lines 77-82).  The process-wide
cache `_param_cache` is threaded explicitly: the result pairs the returned
value (or raised error) with the cache state after the call.  When the cache
is filled and no reload is forced the file is not consulted at all; otherwise
`_read_properties` runs against the file's current content (an error leaves
the cache untouched, as the Python assignment never happens). -/
def load_parametrization (cache : Option PropMap) (path : PathT)
    (file : Option (List Chars)) (force_reload : Bool) :
    Except PyError PropMap × Option PropMap :=
  match cache, force_reload with
  | some m, false => (.ok m, some m)
  | _, _ =>
    match _read_properties path file with
    | .error e => (.error e, cache)
    | .ok m => (.ok m, some m)

/-- The fixed internal-key to environment-variable mapping of `_overlay_env`
(lines 114-126). -/
def envMapping : List (Chars × Chars) :=
  [("browser".data, "BROWSER".data),
   ("url".data, "BASE_URL".data),
   ("headless".data, "HEADLESS".data),
   ("prefer_manager".data, "SELENIUM_PREFER_MANAGER".data),
   ("timeout".data, "TIMEOUT".data),
   ("page_load_timeout".data, "PAGE_LOAD_TIMEOUT".data),
   ("script_timeout".data, "SCRIPT_TIMEOUT".data),
   ("window".data, "WINDOW".data),
   ("se_proxy".data, "SE_PROXY".data),
   ("se_cache_path".data, "SE_CACHE_PATH".data),
   ("se_offline".data, "SE_OFFLINE".data)]

/-- One iteration of `_overlay_env`'s loop (lines 129-132): overwrite the
internal key when its environment variable is set and non-empty. -/
def overlayStep (env : Env) (m : PropMap) (p : Chars × Chars) : PropMap :=
  match alookup env p.2 with
  | some v => if v ≠ [] then assocInsert m p.1 v else m
  | none => m

/-- `WebdriverFactory._overlay_env` (lines 103-133): a no-op unless
`CONFIG_PRECEDENCE` (stripped, lowercased, defaulting to `file`) equals
`env`; otherwise each mapped key is overwritten from its set, non-empty
environment variable. -/
def _overlay_env (env : Env) (params : PropMap) : PropMap :=
  let precedence := lowerStr (strip (getenvD env "CONFIG_PRECEDENCE".data "file".data))
  if precedence ≠ "env".data then params
  else envMapping.foldl (overlayStep env) params

/-- `isSupportedBrowser b` mirrors the membership tests
`browser not in ("chrome", "edge", "firefox")` of `create_from_properties`
(line 159) and `make_driver_from_env` (line 123). -/
def isSupportedBrowser (b : Chars) : Bool :=
  if b = "chrome".data then true
  else if b = "edge".data then true
  else if b = "firefox".data then true
  else false

/-- Python `x or dflt` applied to `params.get(k, dflt)`: a missing key or an
empty (falsy) value both yield the default. -/
def pyOr (v : Option Chars) (dflt : Chars) : Chars :=
  match v with
  | some s => if s = [] then dflt else s
  | none => dflt

/-- The browser selection of `WebdriverFactory.create_from_properties`
(lines 158-161): `(params.get("browser", "chrome") or "chrome").lower()`,
silently replaced by `"chrome"` when outside the supported set. -/
def create_from_properties_browser (params : PropMap) : Chars :=
  let b := lowerStr (pyOr (alookup params "browser".data) "chrome".data)
  if isSupportedBrowser b then b else "chrome".data

/-- The browser selection of `make_driver_from_env` (`webdrivers.py` lines
122-124): `os.getenv("BROWSER", default).lower()`, silently replaced by the
caller-supplied default when outside the supported set. -/
def make_driver_from_env_browser (env : Env) (dflt : Chars) : Chars :=
  let b := lowerStr (getenvD env "BROWSER".data dflt)
  if isSupportedBrowser b then b else dflt

end WebdriverFactory

/-- A Python non-special float value, kept as an unreduced fraction
`num / den` so that all arithmetic reduces in the kernel.  Only values
produced by the repository's own parses and literals occur, so structural
equality coincides with Python float equality at every point of use. -/
structure PyNum where
  num : Int
  den : Nat
deriving DecidableEq

/-- Value of a digit string (most significant first); `0` for `[]`. -/
def digitsVal (s : Chars) : Nat :=
  s.foldl (fun a c => a * 10 + (c.toNat - 48)) 0

/-- A non-empty all-digit string, or parse failure. -/
def parseNat (s : Chars) : Option Nat :=
  if s ≠ [] ∧ s.all Char.isDigit then some (digitsVal s) else none

/-- Python `int(s)`: strip, optional sign, decimal digits; `none` models the
`ValueError` of a malformed literal. -/
def pyInt (s : Chars) : Option Int :=
  match strip s with
  | '-' :: rest => (parseNat rest).map (fun n => -(n : Int))
  | '+' :: rest => (parseNat rest).map (fun n => (n : Int))
  | t => (parseNat t).map (fun n => (n : Int))

/-- Unsigned part of Python `float(s)`: digits with an optional single
decimal point and at least one digit overall. -/
def pyFloatCore (t : Chars) : Option PyNum :=
  let ip := t.takeWhile (fun c => c ≠ '.')
  match t.dropWhile (fun c => c ≠ '.') with
  | [] => (parseNat ip).map (fun n => ⟨(n : Int), 1⟩)
  | _ :: fp =>
    if ip.all Char.isDigit ∧ fp.all Char.isDigit ∧ (ip ≠ [] ∨ fp ≠ []) ∧ '.' ∉ fp then
      some ⟨((digitsVal ip * 10 ^ fp.length + digitsVal fp : Nat) : Int), 10 ^ fp.length⟩
    else none

/-- Python `float(s)` on decimal literals: strip, optional sign, then the
unsigned parse. -/
def pyFloat (s : Chars) : Option PyNum :=
  match strip s with
  | '-' :: rest => (pyFloatCore rest).map (fun q => ⟨-q.num, q.den⟩)
  | '+' :: rest => pyFloatCore rest
  | t => pyFloatCore t

/-- The module-level defaults of `AuxiliaryMethods.py` (lines 15-16),
computed once per process at import:
`DEFAULT_TIMEOUT = int(os.getenv("SELENIUM_TIMEOUT", "10"))` and
`DEFAULT_POLL = float(os.getenv("SELENIUM_POLL", "0.2"))`.  `none` models
the import itself failing on a malformed variable. -/
structure WaitDefaults where
  timeout : Int
  poll : PyNum
deriving DecidableEq

/-- Derivation of the process-wide wait defaults from the environment
(`AuxiliaryMethods.py` lines 15-16). -/
def initWaitDefaults (env : Env) : Option WaitDefaults :=
  match pyInt (getenvD env "SELENIUM_TIMEOUT".data "10".data),
        pyFloat (getenvD env "SELENIUM_POLL".data "0.2".data) with
  | some t, some p => some ⟨t, p⟩
  | _, _ => none

/-- A located element of the page, with the state the expected conditions
inspect. -/
structure Element where
  eid : Nat
  displayed : Bool
  enabled : Bool
  text : Chars
deriving DecidableEq

/-- A Selenium locator: a (strategy, selector) pair. -/
abbrev Locator := Chars × Chars

/-- A live driver session as the wait helpers observe it: the list of
elements each locator matches, and the current URL, both as functions of the
poll step (the page may change while polling). -/
structure Driver where
  dom : Nat → Locator → List Element
  url : Nat → Chars

/-- The one Selenium exception the wait helpers interact with:
`TimeoutException`, raised by `WebDriverWait.until` on expiry. -/
inductive SelError where
  | timeoutExc
deriving DecidableEq

/-- The polling loop of `WebDriverWait.until`, discretized: evaluate the
condition at successive poll steps starting at `i`, returning the first
truthy value, and raising `TimeoutException` once the allowed number of
attempts is exhausted. -/
def untilFrom (eval : Nat → Option α) : Nat → Nat → Except SelError α
  | _, 0 => .error .timeoutExc
  | i, n + 1 =>
    match eval i with
    | some a => .ok a
    | none => untilFrom eval (i + 1) n

/-- Number of condition evaluations a wait of `t` seconds polling every `p`
seconds performs: one at each multiple of `p` inside the window, one more at
entry.  Meaningful for positive `t` and `p`. -/
def attemptsFor (t p : PyNum) : Nat :=
  (t.num * p.den).toNat / (p.num * t.den).toNat + 1

/-- A constructed `WebDriverWait(driver, timeout=…, poll_frequency=…)`:
the pair of parameters that determine its polling behaviour. -/
structure WebDriverWait where
  timeout : PyNum
  poll_frequency : PyNum
deriving DecidableEq

/-- `WebDriverWait.until(method)` under the discretized polling loop. -/
def WebDriverWait.until (w : WebDriverWait) (eval : Nat → Option α) : Except SelError α :=
  untilFrom eval 0 (attemptsFor w.timeout w.poll_frequency)

/-- `EC.presence_of_element_located(locator)` at poll step `i`: the first
matching element, or keep polling. -/
def presenceEval (d : Driver) (loc : Locator) (i : Nat) : Option Element :=
  (d.dom i loc).head?

/-- `EC.visibility_of_element_located(locator)` at poll step `i`: the first
matching element when it is displayed, otherwise keep polling. -/
def visibilityEval (d : Driver) (loc : Locator) (i : Nat) : Option Element :=
  match (d.dom i loc).head? with
  | some e => if e.displayed then some e else none
  | none => none

/-- `EC.element_to_be_clickable(locator)` at poll step `i`: visible and
enabled. -/
def clickableEval (d : Driver) (loc : Locator) (i : Nat) : Option Element :=
  match (d.dom i loc).head? with
  | some e => if e.displayed ∧ e.enabled then some e else none
  | none => none

/-- `EC.invisibility_of_element_located(locator)` at poll step `i`: truthy
when no element matches or the matched element is not displayed. -/
def invisibilityEval (d : Driver) (loc : Locator) (i : Nat) : Option Bool :=
  match (d.dom i loc).head? with
  | some e => if e.displayed then none else some true
  | none => some true

/-- Python `needle in hay` on strings. -/
def containsSub (hay needle : Chars) : Bool :=
  match hay with
  | [] => needle = []
  | _ :: t => needle.isPrefixOf hay || containsSub t needle

/-- `EC.url_contains(fragment)` at poll step `i`. -/
def urlContainsEval (d : Driver) (frag : Chars) (i : Nat) : Option Bool :=
  if containsSub (d.url i) frag then some true else none

namespace AuxiliaryMethods

/-- `AuxiliaryMethods.wait` (lines 25-27): build
`WebDriverWait(driver, timeout=timeout, poll_frequency=DEFAULT_POLL)`.  The
per-call `timeout` defaults to the process-wide `DEFAULT_TIMEOUT`; the poll
frequency is always the process-wide `DEFAULT_POLL` — the method has no
parameter for it. -/
def wait (dfl : WaitDefaults) (timeout : PyNum := ⟨dfl.timeout, 1⟩) : WebDriverWait :=
  ⟨timeout, dfl.poll⟩

/-- `AuxiliaryMethods.wait_present` (lines 29-31). -/
def wait_present (dfl : WaitDefaults) (d : Driver) (loc : Locator)
    (timeout : PyNum := ⟨dfl.timeout, 1⟩) : Except SelError Element :=
  (wait dfl timeout).until (presenceEval d loc)

/-- `AuxiliaryMethods.wait_visible` (lines 33-35). -/
def wait_visible (dfl : WaitDefaults) (d : Driver) (loc : Locator)
    (timeout : PyNum := ⟨dfl.timeout, 1⟩) : Except SelError Element :=
  (wait dfl timeout).until (visibilityEval d loc)

/-- `AuxiliaryMethods.wait_clickable` (lines 37-39). -/
def wait_clickable (dfl : WaitDefaults) (d : Driver) (loc : Locator)
    (timeout : PyNum := ⟨dfl.timeout, 1⟩) : Except SelError Element :=
  (wait dfl timeout).until (clickableEval d loc)

/-- `AuxiliaryMethods.wait_invisible` (lines 41-43). -/
def wait_invisible (dfl : WaitDefaults) (d : Driver) (loc : Locator)
    (timeout : PyNum := ⟨dfl.timeout, 1⟩) : Except SelError Bool :=
  (wait dfl timeout).until (invisibilityEval d loc)

/-- `AuxiliaryMethods.click` (lines 45-48): wait for clickable, then click
(the click itself has no observable in this model); a wait failure
propagates. -/
def click (dfl : WaitDefaults) (d : Driver) (loc : Locator)
    (timeout : PyNum := ⟨dfl.timeout, 1⟩) : Except SelError Unit :=
  (wait_clickable dfl d loc timeout).map (fun _ => ())

/-- `AuxiliaryMethods.type_text` (lines 50-62): wait for visible, then clear
and send keys; a wait failure propagates. -/
def type_text (dfl : WaitDefaults) (d : Driver) (loc : Locator) (text : Chars)
    (clear : Bool := true) (timeout : PyNum := ⟨dfl.timeout, 1⟩) : Except SelError Unit :=
  (wait_visible dfl d loc timeout).map (fun _ => ())

/-- `AuxiliaryMethods.get_text` (lines 64-67): wait for visible, then return
the element's text; a wait failure propagates. -/
def get_text (dfl : WaitDefaults) (d : Driver) (loc : Locator)
    (timeout : PyNum := ⟨dfl.timeout, 1⟩) : Except SelError Chars :=
  (wait_visible dfl d loc timeout).map (fun e => e.text)

/-- `AuxiliaryMethods.exists` (lines 69-75): wait for presence with a short
default timeout of 2, converting `TimeoutException` into `False` instead of
propagating it. -/
def «exists» (dfl : WaitDefaults) (d : Driver) (loc : Locator)
    (timeout : PyNum := ⟨2, 1⟩) : Bool :=
  match wait_present dfl d loc timeout with
  | .ok _ => true
  | .error .timeoutExc => false

/-- `AuxiliaryMethods.wait_url_contains` (lines 77-79). -/
def wait_url_contains (dfl : WaitDefaults) (d : Driver) (frag : Chars)
    (timeout : PyNum := ⟨dfl.timeout, 1⟩) : Except SelError Bool :=
  (wait dfl timeout).until (urlContainsEval d frag)

end AuxiliaryMethods

open WebdriverFactory

/-- A supported-browser test succeeds exactly on the three literal kinds. -/
theorem isSupportedBrowser_eq {b : Chars} (h : isSupportedBrowser b = true) :
    b = "chrome".data ∨ b = "edge".data ∨ b = "firefox".data := by
  by_cases h1 : b = "chrome".data
  · exact Or.inl h1
  by_cases h2 : b = "edge".data
  · exact Or.inr (Or.inl h2)
  by_cases h3 : b = "firefox".data
  · exact Or.inr (Or.inr h3)
  simp [isSupportedBrowser, h1, h2, h3] at h

/-- **C3.** For every root path, `DriverLocator.resolve`
(`_local_driver_path`) maps chrome to
`root/drivers/chromedriver-win64/chromedriver.exe`, edge to
`root/drivers/edge/msedgedriver.exe` and firefox to
`root/drivers/firefox/geckodriver.exe`, and fails with `UnsupportedBrowser`
(the `ValueError`) for every value outside the three; the function receives
no filesystem information, so no existence check takes place. -/
theorem c3_local_driver_path (root : PathT) :
    _local_driver_path root "chrome".data =
      .ok (root ++ ["drivers".data, "chromedriver-win64".data, "chromedriver.exe".data]) ∧
    _local_driver_path root "edge".data =
      .ok (root ++ ["drivers".data, "edge".data, "msedgedriver.exe".data]) ∧
    _local_driver_path root "firefox".data =
      .ok (root ++ ["drivers".data, "firefox".data, "geckodriver.exe".data]) ∧
    ∀ b : Chars, b ≠ "chrome".data → b ≠ "edge".data → b ≠ "firefox".data →
      _local_driver_path root b =
        .error (.valueError "browser debe ser: chrome | edge | firefox".data) := by
  refine ⟨rfl, rfl, rfl, ?_⟩
  intro b h1 h2 h3
  simp [_local_driver_path, h1, h2, h3]

/-- Witness for `c3_local_driver_path` at a concrete root and the concrete
unsupported value `"safari"`. -/
theorem c3_local_driver_path_witness :
    _local_driver_path ["repo".data] "safari".data =
      .error (.valueError "browser debe ser: chrome | edge | firefox".data) :=
  (c3_local_driver_path ["repo".data]).2.2.2 "safari".data
    (by decide) (by decide) (by decide)

/-- **C1.** For every supported browser kind: with `preferManaged` true, a
recoverable managed failure (`NoSuchDriverException` or a generic
`WebDriverException`) records the failure (the fallback warning) and yields
exactly the result of the local plan (the `preferManaged = false` run); a
managed failure of any other exception class propagates unchanged; and with
`preferManaged = false` the managed constructor is never attempted. -/
theorem c1_managed_fallback (w : DriverWorld) (browser : Chars) (headless : Bool)
    (hb : browser = "chrome".data ∨ browser = "edge".data ∨ browser = "firefox".data) :
    (∀ c : ExcClass, c.recoverable = true → w.managedOutcome = some c →
      (create_driver w browser headless true).fallbackWarned = true ∧
      (create_driver w browser headless true).result =
        (create_driver w browser headless false).result) ∧
    (∀ c : ExcClass, c.recoverable = false → w.managedOutcome = some c →
      (create_driver w browser headless true).result = .error (.driverRaised c)) ∧
    (create_driver w browser headless false).managedAttempted = false := by
  obtain ⟨root, mo, le, lo⟩ := w
  refine ⟨?_, ?_, ?_⟩
  · intro c hc hm
    simp only at hm
    subst hm
    rcases hb with rfl | rfl | rfl <;> cases c <;> cases hc <;>
      cases le <;> cases lo <;> exact ⟨rfl, rfl⟩
  · intro c hc hm
    simp only at hm
    subst hm
    rcases hb with rfl | rfl | rfl <;> cases c <;> cases hc <;> rfl
  · rcases hb with rfl | rfl | rfl <;> cases le <;> cases lo <;> rfl

/-- Witness for `c1_managed_fallback`: chrome, managed attempt failing with
a generic `WebDriverException`, local driver present and healthy. -/
theorem c1_managed_fallback_witness :
    (create_driver ⟨["r".data], some .webDriver, true, none⟩ "chrome".data false true).fallbackWarned
        = true ∧
    (create_driver ⟨["r".data], some .webDriver, true, none⟩ "chrome".data false true).result =
      (create_driver ⟨["r".data], some .webDriver, true, none⟩ "chrome".data false false).result :=
  (c1_managed_fallback ⟨["r".data], some .webDriver, true, none⟩ "chrome".data false
      (Or.inl rfl)).1 .webDriver (by decide) rfl

/-- **C2.** For every supported browser kind, when the managed plan is
skipped (`preferManaged = false`) or fails recoverably, and the resolved
local executable path does not exist on disk, provisioning fails with the
`FileNotFoundError` carrying both the browser kind and the attempted path
(`LocalDriverMissing`), and the local constructor is never invoked. -/
theorem c2_local_driver_missing (w : DriverWorld) (browser : Chars) (headless : Bool)
    (p : PathT)
    (hb : browser = "chrome".data ∨ browser = "edge".data ∨ browser = "firefox".data)
    (hp : _local_driver_path w.root browser = .ok p)
    (hmiss : w.localExists = false) :
    ((create_driver w browser headless false).result =
        .error (.localDriverMissing browser p) ∧
      (create_driver w browser headless false).localInvoked = false) ∧
    (∀ c : ExcClass, c.recoverable = true → w.managedOutcome = some c →
      (create_driver w browser headless true).result =
        .error (.localDriverMissing browser p) ∧
      (create_driver w browser headless true).localInvoked = false) := by
  obtain ⟨root, mo, le, lo⟩ := w
  simp only at hp hmiss
  subst hmiss
  refine ⟨?_, ?_⟩
  · rcases hb with rfl | rfl | rfl <;>
      (injection hp with hp; subst hp; exact ⟨rfl, rfl⟩)
  · intro c hc hm
    simp only at hm
    subst hm
    rcases hb with rfl | rfl | rfl <;> cases c <;> cases hc <;>
      (injection hp with hp; subst hp; exact ⟨rfl, rfl⟩)

/-- Witness for `c2_local_driver_missing`: firefox, managed failure by
`NoSuchDriverException`, no local executable on disk. -/
theorem c2_local_driver_missing_witness :
    (create_driver ⟨["r".data], some .noSuchDriver, false, none⟩ "firefox".data true true).result =
      .error (.localDriverMissing "firefox".data
        (["r".data] ++ ["drivers".data, "firefox".data, "geckodriver.exe".data])) ∧
    (create_driver ⟨["r".data], some .noSuchDriver, false, none⟩ "firefox".data true true).localInvoked
      = false :=
  (c2_local_driver_missing ⟨["r".data], some .noSuchDriver, false, none⟩ "firefox".data true
      (["r".data] ++ ["drivers".data, "firefox".data, "geckodriver.exe".data])
      (Or.inr (Or.inr rfl)) rfl rfl).2 .noSuchDriver (by decide) rfl

/-- **C7.** For every supported browser kind and headless flag, a session
obtained through the managed plan and one obtained through the local
fallback carry exactly the same options-argument list — the one options
object built before the two constructors — whose content is the per-kind
headless spelling; the two sessions differ only in their service path. -/
theorem c7_same_launch_options (w1 w2 : DriverWorld) (browser : Chars) (headless : Bool)
    (s1 s2 : Session) (c : ExcClass)
    (hb : browser = "chrome".data ∨ browser = "edge".data ∨ browser = "firefox".data)
    (h1 : w1.managedOutcome = none)
    (hr1 : (create_driver w1 browser headless true).result = .ok s1)
    (h2a : w2.managedOutcome = some c) (h2b : c.recoverable = true)
    (h2c : w2.localExists = true) (h2d : w2.localOutcome = none)
    (hr2 : (create_driver w2 browser headless true).result = .ok s2) :
    s1.optionArgs = s2.optionArgs ∧
    s1.optionArgs = headlessArgs browser headless ∧
    s1.execPath = none ∧ s2.execPath ≠ none := by
  obtain ⟨root1, mo1, le1, lo1⟩ := w1
  obtain ⟨root2, mo2, le2, lo2⟩ := w2
  simp only at h1 h2a h2c h2d
  subst h1 h2a h2c h2d
  rcases hb with rfl | rfl | rfl <;> cases c <;> cases h2b <;>
    (injection hr1 with hr1; injection hr2 with hr2; subst hr1; subst hr2;
     exact ⟨rfl, rfl, rfl, by simp⟩)

/-- Witness for `c7_same_launch_options`: edge, headless, manager success in
world 1 against recoverable manager failure plus local fallback in world 2. -/
theorem c7_same_launch_options_witness :
    (⟨"edge".data, ["--headless=new".data], none⟩ : Session).optionArgs =
      (⟨"edge".data, ["--headless=new".data],
        some (["r".data] ++ ["drivers".data, "edge".data, "msedgedriver.exe".data])⟩ :
          Session).optionArgs ∧
    (⟨"edge".data, ["--headless=new".data], none⟩ : Session).optionArgs =
      headlessArgs "edge".data true ∧
    (⟨"edge".data, ["--headless=new".data], none⟩ : Session).execPath = none ∧
    (⟨"edge".data, ["--headless=new".data],
      some (["r".data] ++ ["drivers".data, "edge".data, "msedgedriver.exe".data])⟩ :
        Session).execPath ≠ none :=
  c7_same_launch_options ⟨["r".data], none, false, none⟩
    ⟨["r".data], some .webDriver, true, none⟩ "edge".data true _ _ .webDriver
    (Or.inr (Or.inl rfl)) rfl rfl rfl (by decide) rfl rfl rfl

/-- For a supported browser kind, `create_driver` can fail with a driver
exception or the missing-local-driver error, but never with the
kind-validation `ValueError`. -/
theorem create_driver_no_valueError {b : Chars}
    (hb : b = "chrome".data ∨ b = "edge".data ∨ b = "firefox".data)
    (w : DriverWorld) (headless pm : Bool) (msg : Chars) :
    (create_driver w b headless pm).result ≠ .error (.valueError msg) := by
  obtain ⟨root, mo, le, lo⟩ := w
  rcases hb with rfl | rfl | rfl <;> cases pm <;> rcases mo with _ | c <;>
    (try cases c) <;> cases le <;> cases lo <;> rintro ⟨⟩

/-- The browser `create_from_properties` selects is always supported. -/
theorem create_from_properties_browser_supported (params : PropMap) :
    isSupportedBrowser (create_from_properties_browser params) = true := by
  unfold create_from_properties_browser
  by_cases h :
      isSupportedBrowser (lowerStr (pyOr (alookup params "browser".data) "chrome".data)) = true
  · simp [h]
  · simp only [Bool.not_eq_true] at h
    simp [h]
    decide

/-- The browser `make_driver_from_env` selects is supported whenever the
caller-supplied default is. -/
theorem make_driver_from_env_browser_supported (env : Env) (dflt : Chars)
    (hd : isSupportedBrowser dflt = true) :
    isSupportedBrowser (make_driver_from_env_browser env dflt) = true := by
  unfold make_driver_from_env_browser
  by_cases h : isSupportedBrowser (lowerStr (getenvD env "BROWSER".data dflt)) = true
  · simp [h]
  · simp only [Bool.not_eq_true] at h
    simp [h, hd]

/-- **C10.** The configuration-driven entry points silently substitute a
supported browser: `create_from_properties` replaces a missing, empty or
unsupported `browser` value by `"chrome"`, `make_driver_from_env` replaces
an unsupported `BROWSER` variable by its caller-supplied default, and the
kind-validation `ValueError` is therefore unreachable from either entry
point. -/
theorem c10_browser_fallback :
    (∀ params : PropMap, alookup params "browser".data = none →
      create_from_properties_browser params = "chrome".data) ∧
    (∀ (params : PropMap) (v : Chars), alookup params "browser".data = some v →
      isSupportedBrowser (lowerStr v) = false →
      create_from_properties_browser params = "chrome".data) ∧
    (∀ (env : Env) (dflt : Chars),
      isSupportedBrowser (lowerStr (getenvD env "BROWSER".data dflt)) = false →
      make_driver_from_env_browser env dflt = dflt) ∧
    (∀ (params : PropMap) (w : DriverWorld) (headless pm : Bool) (msg : Chars),
      (create_driver w (create_from_properties_browser params) headless pm).result ≠
        .error (.valueError msg)) ∧
    (∀ (env : Env) (dflt : Chars) (w : DriverWorld) (headless pm : Bool) (msg : Chars),
      isSupportedBrowser dflt = true →
      (create_driver w (make_driver_from_env_browser env dflt) headless pm).result ≠
        .error (.valueError msg)) := by
  refine ⟨?_, ?_, ?_, ?_, ?_⟩
  · intro params h
    unfold create_from_properties_browser
    rw [h]
    decide
  · intro params v hv hns
    unfold create_from_properties_browser
    rw [hv]
    by_cases hv0 : v = []
    · subst hv0
      decide
    · have hpy : pyOr (some v) "chrome".data = v := by simp [pyOr, hv0]
      rw [hpy]
      simp [hns]
  · intro env dflt h
    unfold make_driver_from_env_browser
    simp [h]
  · intro params w headless pm msg
    exact create_driver_no_valueError
      (isSupportedBrowser_eq (create_from_properties_browser_supported params)) w headless pm msg
  · intro env dflt w headless pm msg hd
    exact create_driver_no_valueError
      (isSupportedBrowser_eq (make_driver_from_env_browser_supported env dflt hd)) w headless pm msg

/-- Witness for `c10_browser_fallback`: an unsupported file value `safari`
is replaced by chrome, and an unsupported `BROWSER=opera` variable by the
default `edge`. -/
theorem c10_browser_fallback_witness :
    create_from_properties_browser [("browser".data, "safari".data)] = "chrome".data ∧
    make_driver_from_env_browser [("BROWSER".data, "opera".data)] "edge".data = "edge".data :=
  ⟨c10_browser_fallback.2.1 [("browser".data, "safari".data)] "safari".data
      (by decide) (by decide),
   c10_browser_fallback.2.2.1 [("BROWSER".data, "opera".data)] "edge".data (by decide)⟩

/-- **C5.** Cache idempotence of `load_parametrization`: a first load of a
well-formed file fills the cache, and a second load without `force_reload`
returns the identical map whatever the file looks like by then — the file is
not re-read at all; a forced reload against changed on-disk content returns
the map of the new content. -/
theorem c5_cache_idempotence (path : PathT) (lines : List Chars)
    (file2 : Option (List Chars)) (m : PropMap)
    (hm : _read_properties path (some lines) = .ok m) :
    (load_parametrization none path (some lines) false = (.ok m, some m) ∧
     load_parametrization (some m) path file2 false = (.ok m, some m)) ∧
    (∀ (cache : Option PropMap) (lines2 : List Chars) (m2 : PropMap),
      _read_properties path (some lines2) = .ok m2 →
      load_parametrization cache path (some lines2) true = (.ok m2, some m2)) := by
  refine ⟨⟨?_, rfl⟩, ?_⟩
  · unfold load_parametrization
    rw [hm]
  · intro cache lines2 m2 hm2
    cases cache <;> (unfold load_parametrization; rw [hm2])

/-- Witness for `c5_cache_idempotence`: a one-line file, then a changed file
on disk; the unforced second load keeps the old map, the forced load picks
up the new one. -/
theorem c5_cache_idempotence_witness :
    (load_parametrization none ["p".data] (some ["a=1".data]) false =
        (.ok [("a".data, "1".data)], some [("a".data, "1".data)]) ∧
      load_parametrization (some [("a".data, "1".data)]) ["p".data] (some ["a=2".data]) false =
        (.ok [("a".data, "1".data)], some [("a".data, "1".data)])) ∧
    load_parametrization (some [("a".data, "1".data)]) ["p".data] (some ["a=2".data]) true =
      (.ok [("a".data, "2".data)], some [("a".data, "2".data)]) :=
  ⟨(c5_cache_idempotence ["p".data] ["a=1".data] (some ["a=2".data]) [("a".data, "1".data)]
      (by decide)).1,
   (c5_cache_idempotence ["p".data] ["a=1".data] (some ["a=2".data]) [("a".data, "1".data)]
      (by decide)).2 (some [("a".data, "1".data)]) ["a=2".data] [("a".data, "2".data)]
      (by decide)⟩

/-- Lookup after a dict assignment. -/
theorem alookup_assocInsert (m : PropMap) (k v k' : Chars) :
    alookup (assocInsert m k v) k' = if k = k' then some v else alookup m k' := by
  induction m with
  | nil =>
    by_cases h : k = k' <;> simp [assocInsert, alookup, h]
  | cons p t ih =>
    obtain ⟨pk, pv⟩ := p
    by_cases h1 : pk = k
    · subst h1
      by_cases h2 : pk = k' <;> simp [assocInsert, alookup, h2]
    · by_cases h2 : pk = k'
      · subst h2
        simp [assocInsert, alookup, h1, Ne.symm h1]
      · simp [assocInsert, alookup, h1, h2, ih]

/-- The value the environment overlay leaves under one internal key: the
set, non-empty variable wins, otherwise the fallback. -/
def overlayVal (env : Env) (envk : Chars) (fb : Option Chars) : Option Chars :=
  match alookup env envk with
  | some v => if v ≠ [] then some v else fb
  | none => fb

/-- Applying the same overlay twice changes nothing more. -/
theorem overlayVal_idem (env : Env) (envk : Chars) (fb : Option Chars) :
    overlayVal env envk (overlayVal env envk fb) = overlayVal env envk fb := by
  unfold overlayVal
  cases h : alookup env envk
  · rfl
  · rename_i v
    by_cases hv : v = [] <;> simp [hv]

/-- One overlay step only touches the key of its mapping entry. -/
theorem alookup_overlayStep (env : Env) (m : PropMap) (p : Chars × Chars) (k : Chars) :
    alookup (overlayStep env m p) k =
      if p.1 = k then overlayVal env p.2 (alookup m k) else alookup m k := by
  unfold overlayStep overlayVal
  cases h : alookup env p.2
  · simp
  · rename_i v
    by_cases hv : v = []
    · subst hv; simp
    · simp [hv, alookup_assocInsert]

/-- The overlay fold leaves keys outside the mapping untouched. -/
theorem alookup_foldl_overlay_of_notmem (env : Env) (L : List (Chars × Chars))
    (m : PropMap) (k : Chars) (h : ∀ p ∈ L, p.1 ≠ k) :
    alookup (L.foldl (overlayStep env) m) k = alookup m k := by
  induction L generalizing m with
  | nil => rfl
  | cons p T ih =>
    rw [List.foldl_cons, ih _ (fun q hq => h q (List.mem_cons_of_mem p hq)),
      alookup_overlayStep]
    simp [h p (List.mem_cons_self p T)]

/-- The overlay fold resolves a mapped key to its environment variable's
overlay value over the file value. -/
theorem alookup_foldl_overlay_of_mem (env : Env) (L : List (Chars × Chars)) (m : PropMap)
    (k envk : Chars) (hmem : (k, envk) ∈ L)
    (huniq : ∀ q ∈ L, q.1 = k → q.2 = envk) :
    alookup (L.foldl (overlayStep env) m) k = overlayVal env envk (alookup m k) := by
  induction L generalizing m with
  | nil => cases hmem
  | cons p T ih =>
    rw [List.foldl_cons]
    by_cases hk : p.1 = k
    · have hpe : p.2 = envk := huniq p (List.mem_cons_self p T) hk
      by_cases hT : ∃ e, (k, e) ∈ T
      · obtain ⟨e, he⟩ := hT
        have he' : e = envk := huniq (k, e) (List.mem_cons_of_mem p he) rfl
        subst he'
        rw [ih (overlayStep env m p) he
            (fun q hq hq1 => huniq q (List.mem_cons_of_mem p hq) hq1),
          alookup_overlayStep, if_pos hk, hpe, overlayVal_idem]
      · have hnot : ∀ q ∈ T, q.1 ≠ k := by
          intro q hq hq1
          exact hT ⟨q.2, by rw [← hq1]; exact hq⟩
        rw [alookup_foldl_overlay_of_notmem env T _ k hnot, alookup_overlayStep,
          if_pos hk, hpe]
    · have hmem' : (k, envk) ∈ T := by
        rcases List.mem_cons.mp hmem with h | h
        · exact absurd (congrArg Prod.fst h.symm) hk
        · exact h
      rw [ih (overlayStep env m p) hmem'
          (fun q hq hq1 => huniq q (List.mem_cons_of_mem p hq) hq1),
        alookup_overlayStep, if_neg hk]

/-- **C6.** For every config map and environment: when `CONFIG_PRECEDENCE`
(stripped, lowercased, defaulting to `file`) is not `env`, the overlay
returns the map entirely unchanged; when it is `env`, each of the eleven
mapped internal keys resolves to its environment variable exactly when that
variable is set and non-empty (the file value otherwise), and every other
key is untouched. -/
theorem c6_overlay_env (env : Env) (params : PropMap) :
    (lowerStr (strip (getenvD env "CONFIG_PRECEDENCE".data "file".data)) ≠ "env".data →
      _overlay_env env params = params) ∧
    (lowerStr (strip (getenvD env "CONFIG_PRECEDENCE".data "file".data)) = "env".data →
      (∀ k envk : Chars, (k, envk) ∈ envMapping →
        alookup (_overlay_env env params) k = overlayVal env envk (alookup params k)) ∧
      (∀ k : Chars, (∀ p ∈ envMapping, p.1 ≠ k) →
        alookup (_overlay_env env params) k = alookup params k)) := by
  have hfold : lowerStr (strip (getenvD env "CONFIG_PRECEDENCE".data "file".data)) =
      "env".data →
      _overlay_env env params = envMapping.foldl (overlayStep env) params := by
    intro h
    unfold _overlay_env
    simp [h]
  refine ⟨?_, ?_⟩
  · intro h
    unfold _overlay_env
    simp [h]
  · intro h
    refine ⟨?_, ?_⟩
    · intro k envk hmem
      rw [hfold h]
      refine alookup_foldl_overlay_of_mem env envMapping params k envk hmem ?_
      fin_cases hmem <;> decide
    · intro k hk
      rw [hfold h]
      exact alookup_foldl_overlay_of_notmem env envMapping params k hk

/-- Witness for `c6_overlay_env`: with `CONFIG_PRECEDENCE=env` and
`BROWSER=firefox` against a file saying `browser=chrome` the effective
browser is firefox; without the precedence switch the overlay is the
identity. -/
theorem c6_overlay_env_witness :
    alookup (_overlay_env
        [("CONFIG_PRECEDENCE".data, "env".data), ("BROWSER".data, "firefox".data)]
        [("browser".data, "chrome".data)]) "browser".data = some "firefox".data ∧
    _overlay_env [("BROWSER".data, "firefox".data)] [("browser".data, "chrome".data)] =
      [("browser".data, "chrome".data)] := by
  constructor
  · have h := ((c6_overlay_env
        [("CONFIG_PRECEDENCE".data, "env".data), ("BROWSER".data, "firefox".data)]
        [("browser".data, "chrome".data)]).2 (by decide)).1
        "browser".data "BROWSER".data (by decide)
    rw [h]
    decide
  · exact (c6_overlay_env [("BROWSER".data, "firefox".data)]
      [("browser".data, "chrome".data)]).1 (by decide)

/-- **C8.** For every driver, locator and timeout, `exists` returns `true`
exactly when the presence wait returns an element within its timeout and
`false` exactly when that wait raises `TimeoutException` — the timeout is
converted into a boolean instead of propagating; the derived helpers
(`click`, `type_text`, `get_text`) propagate a wait failure unchanged. -/
theorem c8_exists_converts_timeout (dfl : WaitDefaults) (d : Driver) (loc : Locator)
    (t : PyNum) :
    (AuxiliaryMethods.«exists» dfl d loc t = true ↔
      ∃ e, AuxiliaryMethods.wait_present dfl d loc t = .ok e) ∧
    (AuxiliaryMethods.«exists» dfl d loc t = false ↔
      AuxiliaryMethods.wait_present dfl d loc t = .error .timeoutExc) ∧
    (∀ er, AuxiliaryMethods.wait_clickable dfl d loc t = .error er →
      AuxiliaryMethods.click dfl d loc t = .error er) ∧
    (∀ txt clear er, AuxiliaryMethods.wait_visible dfl d loc t = .error er →
      AuxiliaryMethods.type_text dfl d loc txt clear t = .error er) ∧
    (∀ er, AuxiliaryMethods.wait_visible dfl d loc t = .error er →
      AuxiliaryMethods.get_text dfl d loc t = .error er) := by
  refine ⟨?_, ?_, ?_, ?_, ?_⟩
  · unfold AuxiliaryMethods.«exists»
    cases h : AuxiliaryMethods.wait_present dfl d loc t with
    | error er => cases er; simp
    | ok e => simp
  · unfold AuxiliaryMethods.«exists»
    cases h : AuxiliaryMethods.wait_present dfl d loc t with
    | error er => cases er; simp
    | ok e => simp
  · intro er h
    unfold AuxiliaryMethods.click
    rw [h]
    rfl
  · intro txt clear er h
    unfold AuxiliaryMethods.type_text
    rw [h]
    rfl
  · intro er h
    unfold AuxiliaryMethods.get_text
    rw [h]
    rfl

/-- Witness for `c8_exists_converts_timeout`: against a page holding one
matching element `exists` is true; against an empty page the presence wait
times out and `exists` is false rather than an exception. -/
theorem c8_exists_converts_timeout_witness :
    AuxiliaryMethods.«exists» ⟨10, ⟨2, 10⟩⟩
      ⟨fun _ _ => [⟨1, true, true, []⟩], fun _ => []⟩ ("id".data, "x".data) ⟨2, 1⟩ = true ∧
    AuxiliaryMethods.«exists» ⟨10, ⟨2, 10⟩⟩
      ⟨fun _ _ => [], fun _ => []⟩ ("id".data, "x".data) ⟨2, 1⟩ = false :=
  ⟨(c8_exists_converts_timeout ⟨10, ⟨2, 10⟩⟩
      ⟨fun _ _ => [⟨1, true, true, []⟩], fun _ => []⟩ ("id".data, "x".data) ⟨2, 1⟩).1.mpr
      ⟨⟨1, true, true, []⟩, by decide⟩,
   (c8_exists_converts_timeout ⟨10, ⟨2, 10⟩⟩
      ⟨fun _ _ => [], fun _ => []⟩ ("id".data, "x".data) ⟨2, 1⟩).2.1.mpr (by decide)⟩

/-- **C9 counterexample.** The claim's per-call poll-interval override does
not exist: with `SELENIUM_POLL=0.7` the process defaults carry poll 0.7, and
the `WebDriverWait` the helpers construct carries exactly that
process-default poll frequency for distinct per-call timeouts — no helper
takes a poll argument at all (see their signatures: driver, locator, timeout
only). -/
theorem c9_no_per_call_poll :
    initWaitDefaults [("SELENIUM_POLL".data, "0.7".data)] = some ⟨10, ⟨7, 10⟩⟩ ∧
    AuxiliaryMethods.wait ⟨10, ⟨7, 10⟩⟩ ⟨5, 1⟩ = ⟨⟨5, 1⟩, ⟨7, 10⟩⟩ ∧
    AuxiliaryMethods.wait ⟨10, ⟨7, 10⟩⟩ ⟨300, 1⟩ = ⟨⟨300, 1⟩, ⟨7, 10⟩⟩ := by
  refine ⟨by decide, rfl, rfl⟩

/-- **C9 amended.** The default timeout and poll interval are both sourced
from environment variables once per process (`SELENIUM_TIMEOUT`, default 10;
`SELENIUM_POLL`, default 0.2); every wait helper accepts a per-call timeout,
while the poll frequency of every wait it constructs is always the
process-wide default — the poll interval has no per-call override. -/
theorem c9_wait_defaults (env : Env) (dfl : WaitDefaults) (d : Driver) (loc : Locator)
    (frag : Chars) (t : PyNum) :
    (∀ (n : Int) (q : PyNum),
      pyInt (getenvD env "SELENIUM_TIMEOUT".data "10".data) = some n →
      pyFloat (getenvD env "SELENIUM_POLL".data "0.2".data) = some q →
      initWaitDefaults env = some ⟨n, q⟩) ∧
    initWaitDefaults [] = some ⟨10, ⟨2, 10⟩⟩ ∧
    (AuxiliaryMethods.wait dfl t).timeout = t ∧
    (AuxiliaryMethods.wait dfl t).poll_frequency = dfl.poll ∧
    AuxiliaryMethods.wait_present dfl d loc t =
      WebDriverWait.until ⟨t, dfl.poll⟩ (presenceEval d loc) ∧
    AuxiliaryMethods.wait_visible dfl d loc t =
      WebDriverWait.until ⟨t, dfl.poll⟩ (visibilityEval d loc) ∧
    AuxiliaryMethods.wait_clickable dfl d loc t =
      WebDriverWait.until ⟨t, dfl.poll⟩ (clickableEval d loc) ∧
    AuxiliaryMethods.wait_invisible dfl d loc t =
      WebDriverWait.until ⟨t, dfl.poll⟩ (invisibilityEval d loc) ∧
    AuxiliaryMethods.wait_url_contains dfl d frag t =
      WebDriverWait.until ⟨t, dfl.poll⟩ (urlContainsEval d frag) := by
  refine ⟨?_, by decide, rfl, rfl, rfl, rfl, rfl, rfl, rfl⟩
  intro n q hn hq
  unfold initWaitDefaults
  rw [hn, hq]

/-- Witness for `c9_wait_defaults`: with `SELENIUM_TIMEOUT=3` and
`SELENIUM_POLL=0.5` set, the process defaults come out as 3 and 0.5. -/
theorem c9_wait_defaults_witness :
    initWaitDefaults [("SELENIUM_TIMEOUT".data, "3".data), ("SELENIUM_POLL".data, "0.5".data)] =
      some ⟨3, ⟨5, 10⟩⟩ :=
  (c9_wait_defaults
      [("SELENIUM_TIMEOUT".data, "3".data), ("SELENIUM_POLL".data, "0.5".data)]
      ⟨10, ⟨2, 10⟩⟩ ⟨fun _ _ => [], fun _ => []⟩ ([], []) [] ⟨1, 1⟩).1
    3 ⟨5, 10⟩ (by decide) (by decide)

/-- Dropping a prefix stops no later than a non-matching element. -/
theorem dropWhile_append_cons (p : Char → Bool) (a b : Chars) (c : Char)
    (hc : p c = false) :
    (a ++ c :: b).dropWhile p = a.dropWhile p ++ c :: b := by
  induction a with
  | nil => simp [List.dropWhile_cons, hc]
  | cons x xs ih =>
    by_cases hx : p x <;> simp [List.dropWhile_cons, hx, ih]

/-- Taking while everything before a non-matching element matches yields
exactly that prefix. -/
theorem takeWhile_append_cons (p : Char → Bool) (a b : Chars) (c : Char)
    (hc : p c = false) (hall : ∀ x ∈ a, p x = true) :
    (a ++ c :: b).takeWhile p = a := by
  induction a with
  | nil => simp [List.takeWhile_cons, hc]
  | cons x xs ih =>
    have hx : p x = true := hall x (List.mem_cons_self x xs)
    simp [List.takeWhile_cons, hx]
    exact ih (fun y hy => hall y (List.mem_cons_of_mem x hy))

/-- Dropping while everything before a non-matching element matches leaves
that element and the rest. -/
theorem dropWhile_append_cons_all (p : Char → Bool) (a b : Chars) (c : Char)
    (hc : p c = false) (hall : ∀ x ∈ a, p x = true) :
    (a ++ c :: b).dropWhile p = c :: b := by
  induction a with
  | nil => simp [List.dropWhile_cons, hc]
  | cons x xs ih =>
    have hx : p x = true := hall x (List.mem_cons_self x xs)
    simp [List.dropWhile_cons, hx]
    exact ih (fun y hy => hall y (List.mem_cons_of_mem x hy))

/-- `dropWhile` is idempotent. -/
theorem dropWhile_idem (p : Char → Bool) (l : Chars) :
    (l.dropWhile p).dropWhile p = l.dropWhile p := by
  induction l with
  | nil => rfl
  | cons x xs ih => by_cases hx : p x <;> simp [List.dropWhile_cons, hx, ih]

/-- Left-trimming is idempotent. -/
theorem ltrim_idem (l : Chars) : ltrim (ltrim l) = ltrim l :=
  dropWhile_idem Char.isWhitespace l

/-- Right-trimming is idempotent. -/
theorem rtrim_idem (l : Chars) : rtrim (rtrim l) = rtrim l := by
  unfold rtrim
  rw [List.reverse_reverse, dropWhile_idem]

/-- Unfolding equation of `rtrim` on a cons cell. -/
theorem rtrim_cons (c : Char) (t : Chars) :
    rtrim (c :: t) =
      if Char.isWhitespace c ∧ rtrim t = [] then [] else c :: rtrim t := by
  unfold rtrim
  rw [List.reverse_cons, List.dropWhile_append]
  by_cases ht : t.reverse.dropWhile Char.isWhitespace = []
  · by_cases hc : Char.isWhitespace c <;>
      simp [ht, List.dropWhile_cons, hc]
  · simp [ht, List.reverse_append]

/-- Left- and right-trimming commute. -/
theorem ltrim_rtrim_comm (l : Chars) : ltrim (rtrim l) = rtrim (ltrim l) := by
  induction l with
  | nil => rfl
  | cons c t ih =>
    by_cases hc : Char.isWhitespace c
    · by_cases ht : rtrim t = []
      · rw [rtrim_cons]
        simp only [hc, ht, and_self, if_pos, true_and]
        have h1 : ltrim (c :: t) = ltrim t := by simp [ltrim, List.dropWhile_cons, hc]
        rw [show ltrim ([] : Chars) = [] from rfl, h1, ← ih, ht]
        rfl
      · rw [rtrim_cons]
        simp only [hc, ht, and_false, if_neg, true_and, not_false_iff]
        have h1 : ltrim (c :: rtrim t) = ltrim (rtrim t) := by
          simp [ltrim, List.dropWhile_cons, hc]
        have h2 : ltrim (c :: t) = ltrim t := by simp [ltrim, List.dropWhile_cons, hc]
        rw [h1, h2, ih]
    · have hcf : Char.isWhitespace c = false := by simpa using hc
      rw [rtrim_cons]
      simp only [hcf, Bool.false_eq_true, false_and, if_neg, not_false_iff]
      have h1 : ltrim (c :: rtrim t) = c :: rtrim t := by
        simp [ltrim, List.dropWhile_cons, hcf]
      have h2 : ltrim (c :: t) = c :: t := by simp [ltrim, List.dropWhile_cons, hcf]
      rw [h1, h2, rtrim_cons]
      simp [hcf]

/-- Stripping a left-trimmed string strips the original. -/
theorem strip_ltrim (a : Chars) : strip (ltrim a) = strip a := by
  unfold strip
  rw [ltrim_idem]

/-- Stripping a right-trimmed string strips the original. -/
theorem strip_rtrim (b : Chars) : strip (rtrim b) = strip b := by
  unfold strip
  rw [ltrim_rtrim_comm, rtrim_idem, ← ltrim_rtrim_comm, ltrim_rtrim_comm]

/-- Stripping a line around its first `=`: whitespace can only be removed at
the two outer ends. -/
theorem strip_append_eq (a b : Chars) :
    strip (a ++ '=' :: b) = ltrim a ++ '=' :: rtrim b := by
  have hws : Char.isWhitespace '=' = false := by decide
  unfold strip
  rw [show ltrim (a ++ '=' :: b) = ltrim a ++ '=' :: b from
    dropWhile_append_cons _ _ _ _ hws]
  unfold rtrim
  rw [List.reverse_append, List.reverse_cons, List.append_assoc,
    List.singleton_append, dropWhile_append_cons _ _ _ _ hws,
    List.reverse_append, List.reverse_cons, List.reverse_reverse]
  simp

/-- **C4.** The config parser: a missing file raises the `FileNotFoundError`
naming the parametrization path (`ConfigNotFound`) and a present file always
parses; in the produced map blank lines and lines whose stripped form starts
with `#` or `;` contribute nothing, a line without `=` is silently skipped,
and every remaining line is split at its first `=` into a key and a value
that are both whitespace-trimmed. -/
theorem c4_read_properties :
    (∀ path : PathT, _read_properties path none = .error (.configNotFound path)) ∧
    (∀ (path : PathT) (lines : List Chars),
      _read_properties path (some lines) = .ok (lines.foldl propStep [])) ∧
    (∀ (m : PropMap) (raw : Chars),
      strip raw = [] ∨ (strip raw).head? = some '#' ∨ (strip raw).head? = some ';' →
      propStep m raw = m) ∧
    (∀ (m : PropMap) (raw : Chars), '=' ∉ strip raw → propStep m raw = m) ∧
    (∀ (m : PropMap) (a b : Chars), '=' ∉ a →
      (strip (a ++ '=' :: b)).head? ≠ some '#' →
      (strip (a ++ '=' :: b)).head? ≠ some ';' →
      propStep m (a ++ '=' :: b) = assocInsert m (strip a) (strip b)) := by
  refine ⟨fun _ => rfl, fun _ _ => rfl, ?_, ?_, ?_⟩
  · intro m raw h
    unfold propStep parseLine
    by_cases h0 : strip raw = []
    · simp [h0]
    · rcases h with h | h | h
      · exact absurd h h0
      · simp [h0, h]
      · simp [h0, h]
  · intro m raw h
    unfold propStep parseLine
    by_cases h0 : strip raw = []
    · simp [h0]
    · by_cases h1 : (strip raw).head? = some '#' ∨ (strip raw).head? = some ';'
      · simp [h0, h1]
      · simp [h0, h1, h]
  · intro m a b ha h1 h2
    have hsplit := strip_append_eq a b
    rw [hsplit] at h1 h2
    have ha' : ∀ x ∈ ltrim a, (fun c => decide ¬(c = '=')) x = true := by
      intro x hx
      have hxa : x ∈ a := (List.dropWhile_sublist _).mem hx
      simp only [decide_eq_true_eq]
      intro hEq
      exact ha (hEq ▸ hxa)
    have hkey : (ltrim a ++ '=' :: rtrim b).takeWhile (fun c => c ≠ '=') = ltrim a :=
      takeWhile_append_cons _ _ _ _ (by decide) ha'
    have hval : (ltrim a ++ '=' :: rtrim b).dropWhile (fun c => c ≠ '=') = '=' :: rtrim b :=
      dropWhile_append_cons_all _ _ _ _ (by decide) ha'
    have hne : ltrim a ++ '=' :: rtrim b ≠ [] := by simp
    have hcom : ¬((ltrim a ++ '=' :: rtrim b).head? = some '#' ∨
        (ltrim a ++ '=' :: rtrim b).head? = some ';') := by
      rintro (h | h)
      · exact h1 h
      · exact h2 h
    have hmem : '=' ∈ ltrim a ++ '=' :: rtrim b :=
      List.mem_append_right _ (List.mem_cons_self _ _)
    unfold propStep parseLine
    rw [hsplit, if_neg hne, if_neg hcom, if_pos hmem, hkey, hval]
    simp only [List.tail_cons]
    rw [strip_ltrim, strip_rtrim]

/-- Witness for `c4_read_properties`: a comment line and a blank line
contribute nothing, a line without `=` is skipped, and `" key = a = b "`
parses to key `key` with value `a = b`. -/
theorem c4_read_properties_witness :
    _read_properties ["p".data] none = .error (.configNotFound ["p".data]) ∧
    propStep [] "# comment".data = [] ∧
    propStep [] "   ".data = [] ∧
    propStep [] "no equals here".data = [] ∧
    propStep [] (" key ".data ++ '=' :: " a = b ".data) =
      assocInsert [] (strip " key ".data) (strip " a = b ".data) :=
  ⟨c4_read_properties.1 ["p".data],
   c4_read_properties.2.2.1 [] "# comment".data (Or.inr (Or.inl (by decide))),
   c4_read_properties.2.2.1 [] "   ".data (Or.inl (by decide)),
   c4_read_properties.2.2.2.1 [] "no equals here".data (by decide),
   c4_read_properties.2.2.2.2 [] " key ".data " a = b ".data (by decide)
     (by decide) (by decide)⟩
